import Mathlib

/-!
# Verification of the SEDP packet validator (`tools/validate_sedp.py`)

Shallow embedding of the capture-to-validation pipeline of the SEDP packet
validator: pcap reading (`read_pcap`), RTPS submessage walking
(`parse_submessages`), entity-id classification (`classify_entity_id`),
CDR parameter-list decoding (`parse_cdr_parameter_list`) and SEDP
validation (`validate_sedp_packet`).

Byte buffers are `List Nat` (one entry per byte); Python slices `data[a:b]`
become `listSlice` (slicing in Python clamps to the buffer, never raises);
Python `struct.unpack` of fixed-width integers becomes explicit
little/big-endian recombination of the individual bytes.  The walking loops
are written with an explicit fuel argument (the source uses `while` loops
whose cursor strictly increases each step; any fuel larger than the buffer
length is enough, and the top-level wrappers pass `length + 1`).
Python dictionaries with optional keys (`submsg['decoded']`,
`submsg.get('entity_type')`, ...) become structures with `Option` fields.
`print`ed warnings of `read_pcap` are collected in a returned list so that
the reporting behaviour is visible to the theorems.
-/

/-- Two bytes as a 16-bit little-endian integer (Python `struct.unpack('<H', ...)`). -/
def le16 (b0 b1 : Nat) : Nat := b0 + 256 * b1

/-- Four bytes as a 32-bit little-endian integer (Python `struct.unpack('<I', ...)`). -/
def le32 (b0 b1 b2 b3 : Nat) : Nat := b0 + 256 * b1 + 65536 * b2 + 16777216 * b3

/-- Two bytes as a 16-bit big-endian integer (Python `struct.unpack('>H', ...)`). -/
def be16 (b0 b1 : Nat) : Nat := 256 * b0 + b1

/-- Four bytes as a 32-bit big-endian integer (Python `struct.unpack('>I', ...)`). -/
def be32 (b0 b1 b2 b3 : Nat) : Nat := 16777216 * b0 + 65536 * b1 + 256 * b2 + b3

/-- Eight bytes as a 64-bit little-endian integer (Python `struct.unpack('<Q', ...)`). -/
def le64 (b0 b1 b2 b3 b4 b5 b6 b7 : Nat) : Nat :=
  le32 b0 b1 b2 b3 + 4294967296 * le32 b4 b5 b6 b7

/-- Python slice `data[a:b]` (with `0 ≤ a, b`): clamps to the buffer, never raises. -/
def listSlice (data : List Nat) (a b : Nat) : List Nat := (data.take b).drop a

/-- `RTPS_SUBMSG_DATA` from the source: the DATA submessage kind id. -/
def RTPS_SUBMSG_DATA : Nat := 0x15

/-- The `ENTITY_IDS` table from the source (RTPS v2.3 Table 9.1), as a
partial map from the 32-bit entity id to its symbolic name. -/
def ENTITY_IDS (e : Nat) : Option String :=
  if e = 0x000000C0 then some "ENTITYID_UNKNOWN"
  else if e = 0x000100C2 then some "ENTITYID_SPDP_BUILTIN_PARTICIPANT_WRITER"
  else if e = 0x000001C1 then some "ENTITYID_SPDP_BUILTIN_PARTICIPANT_READER"
  else if e = 0x000003C2 then some "ENTITYID_SEDP_BUILTIN_PUBLICATIONS_WRITER"
  else if e = 0x000004C2 then some "ENTITYID_SEDP_BUILTIN_PUBLICATIONS_READER"
  else if e = 0x000003C7 then some "ENTITYID_SEDP_BUILTIN_SUBSCRIPTIONS_WRITER"
  else if e = 0x000004C7 then some "ENTITYID_SEDP_BUILTIN_SUBSCRIPTIONS_READER"
  else if e = 0x000200C2 then some "ENTITYID_SEDP_BUILTIN_TOPIC_WRITER"
  else if e = 0x000201C2 then some "ENTITYID_SEDP_BUILTIN_TOPIC_READER"
  else none

/-- Whether `pat` occurs as a contiguous substring of the character list. -/
def listHasSub (pat : List Char) : List Char → Bool
  | [] => pat.isEmpty
  | c :: rest => pat.isPrefixOf (c :: rest) || listHasSub pat rest

/-- Python's `pat in s` substring test on strings. -/
def strHasSub (s pat : String) : Bool := listHasSub pat.toList s.toList

/-- `classify_entity_id` from the source: classify an entity id into
SPDP/SEDP_PUB/SEDP_SUB/BUILTIN/USER by substring-matching the entry of the
`ENTITY_IDS` table (unknown ids classify as USER). -/
def classify_entity_id (entity_id : Nat) : String :=
  match ENTITY_IDS entity_id with
  | some name =>
    if strHasSub name "SPDP" then "SPDP"
    else if strHasSub name "PUBLICATIONS" then "SEDP_PUB"
    else if strHasSub name "SUBSCRIPTIONS" then "SEDP_SUB"
    else "BUILTIN"
  | none => "USER"

/-- Uppercase hex digit (for Python's `%04X` format). -/
def hexDigitUpper (n : Nat) : Char :=
  if n < 10 then Char.ofNat (48 + n) else Char.ofNat (55 + n)

/-- Lowercase hex digit (for Python's `%08x` format and `bytes.hex()`). -/
def hexDigitLower (n : Nat) : Char :=
  if n < 10 then Char.ofNat (48 + n) else Char.ofNat (87 + n)

/-- Hex digits of `n`, most significant first (empty for `n = 0`); the first
argument is fuel (passing `n` itself is always enough). -/
def hexDigitsAux (digit : Nat → Char) : Nat → Nat → List Char
  | 0, _ => []
  | fuel + 1, n => if n = 0 then [] else hexDigitsAux digit fuel (n / 16) ++ [digit (n % 16)]

/-- `n` in hex, zero-padded to at least `width` digits (Python `f"{n:0{width}x}"`). -/
def padHex (digit : Nat → Char) (width n : Nat) : String :=
  let ds := hexDigitsAux digit n n
  ⟨List.replicate (width - ds.length) '0' ++ ds⟩

/-- Python `f"{n:04X}"`. -/
def hex4Upper (n : Nat) : String := padHex hexDigitUpper 4 n

/-- Python `f"{n:08x}"`. -/
def hex8Lower (n : Nat) : String := padHex hexDigitLower 8 n

/-- Python `bytes.hex()`: two lowercase hex digits per byte. -/
def bytesHex (l : List Nat) : String :=
  ⟨(l.map (fun b => [hexDigitLower (b / 16 % 16), hexDigitLower (b % 16)])).flatten⟩

/-- A UTF-8 continuation byte (`0x80..0xBF`). -/
def isCont (b : Nat) : Bool := 0x80 ≤ b && b < 0xC0

/-- Valid first continuation byte after a 3-byte lead (excludes overlong
encodings after `0xE0` and surrogates after `0xED`). -/
def cont3first (b0 b1 : Nat) : Bool :=
  if b0 = 0xE0 then 0xA0 ≤ b1 && b1 < 0xC0
  else if b0 = 0xED then 0x80 ≤ b1 && b1 < 0xA0
  else isCont b1

/-- Valid first continuation byte after a 4-byte lead (excludes overlong
encodings after `0xF0` and code points above U+10FFFF after `0xF4`). -/
def cont4first (b0 b1 : Nat) : Bool :=
  if b0 = 0xF0 then 0x90 ≤ b1 && b1 < 0xC0
  else if b0 = 0xF4 then 0x80 ≤ b1 && b1 < 0x90
  else isCont b1

/-- Fuel-indexed core of `utf8Ignore` (each step consumes at least one byte,
so fuel equal to the list length is always enough). -/
def utf8IgnoreAux : Nat → List Nat → List Char
  | 0, _ => []
  | _ + 1, [] => []
  | fuel + 1, b0 :: t =>
    if b0 < 0x80 then Char.ofNat b0 :: utf8IgnoreAux fuel t
    else if b0 < 0xC2 then utf8IgnoreAux fuel t
    else if b0 < 0xE0 then
      match t with
      | [] => []
      | b1 :: t1 =>
        if isCont b1 then Char.ofNat ((b0 % 0x20) * 0x40 + b1 % 0x40) :: utf8IgnoreAux fuel t1
        else utf8IgnoreAux fuel t
    else if b0 < 0xF0 then
      match t with
      | [] => []
      | b1 :: t1 =>
        if cont3first b0 b1 then
          match t1 with
          | [] => []
          | b2 :: t2 =>
            if isCont b2 then
              Char.ofNat ((b0 % 0x10) * 0x1000 + (b1 % 0x40) * 0x40 + b2 % 0x40) :: utf8IgnoreAux fuel t2
            else utf8IgnoreAux fuel t1
        else utf8IgnoreAux fuel t
    else if b0 < 0xF5 then
      match t with
      | [] => []
      | b1 :: t1 =>
        if cont4first b0 b1 then
          match t1 with
          | [] => []
          | b2 :: t2 =>
            if isCont b2 then
              match t2 with
              | [] => []
              | b3 :: t3 =>
                if isCont b3 then
                  Char.ofNat ((b0 % 8) * 0x40000 + (b1 % 0x40) * 0x1000 + (b2 % 0x40) * 0x40 + b3 % 0x40) :: utf8IgnoreAux fuel t3
                else utf8IgnoreAux fuel t2
            else utf8IgnoreAux fuel t1
        else utf8IgnoreAux fuel t
    else utf8IgnoreAux fuel t

/-- Modelled from the spec: Python's `bytes.decode('utf-8', errors='ignore')`
(standard-library behaviour used by the source, not part of the repository):
decode UTF-8, silently dropping the bytes of any invalid or truncated
sequence and resuming at the byte that broke it. -/
def utf8Ignore (l : List Nat) : List Char := utf8IgnoreAux l.length l

/-- The `PID_MAP` table from the source (RTPS v2.3 Table 8.76, DDS-XTypes
v1.3), as a partial map from parameter id to symbolic name. -/
def PID_MAP (pid : Nat) : Option String :=
  if pid = 0x0001 then some "PID_SENTINEL"
  else if pid = 0x0002 then some "PID_USER_DATA"
  else if pid = 0x0003 then some "PID_TOPIC_NAME"
  else if pid = 0x0004 then some "PID_TYPE_NAME"
  else if pid = 0x0005 then some "PID_GROUP_DATA"
  else if pid = 0x0006 then some "PID_TOPIC_DATA"
  else if pid = 0x0007 then some "PID_DURABILITY"
  else if pid = 0x000B then some "PID_DEADLINE"
  else if pid = 0x000D then some "PID_LATENCY_BUDGET"
  else if pid = 0x000F then some "PID_LIVELINESS"
  else if pid = 0x0011 then some "PID_RELIABILITY"
  else if pid = 0x0016 then some "PID_LIFESPAN"
  else if pid = 0x001A then some "PID_DESTINATION_ORDER"
  else if pid = 0x001D then some "PID_PRESENTATION"
  else if pid = 0x001F then some "PID_PARTITION"
  else if pid = 0x0023 then some "PID_TIME_BASED_FILTER"
  else if pid = 0x0025 then some "PID_OWNERSHIP"
  else if pid = 0x0029 then some "PID_OWNERSHIP_STRENGTH"
  else if pid = 0x002B then some "PID_DESTINATION_ORDER"
  else if pid = 0x002F then some "PID_METATRAFFIC_UNICAST_LOCATOR"
  else if pid = 0x0030 then some "PID_METATRAFFIC_MULTICAST_LOCATOR"
  else if pid = 0x0031 then some "PID_DEFAULT_UNICAST_LOCATOR"
  else if pid = 0x0032 then some "PID_DEFAULT_MULTICAST_LOCATOR"
  else if pid = 0x0033 then some "PID_METATRAFFIC_UNICAST_IPADDRESS"
  else if pid = 0x0034 then some "PID_METATRAFFIC_MULTICAST_IPADDRESS"
  else if pid = 0x0035 then some "PID_DEFAULT_UNICAST_IPADDRESS"
  else if pid = 0x0040 then some "PID_PROTOCOL_VERSION"
  else if pid = 0x0041 then some "PID_VENDOR_ID"
  else if pid = 0x0043 then some "PID_MULTICAST_IPADDRESS"
  else if pid = 0x0044 then some "PID_DEFAULT_UNICAST_PORT"
  else if pid = 0x0045 then some "PID_METATRAFFIC_UNICAST_PORT"
  else if pid = 0x0046 then some "PID_METATRAFFIC_MULTICAST_PORT"
  else if pid = 0x0048 then some "PID_UNICAST_LOCATOR"
  else if pid = 0x0050 then some "PID_EXPECTS_INLINE_QOS"
  else if pid = 0x0058 then some "PID_PARTICIPANT_MANUAL_LIVELINESS_COUNT"
  else if pid = 0x0059 then some "PID_PARTICIPANT_BUILTIN_ENDPOINTS"
  else if pid = 0x005A then some "PID_ENDPOINT_GUID"
  else if pid = 0x005B then some "PID_PARTICIPANT_GUID"
  else if pid = 0x005C then some "PID_PARTICIPANT_LEASE_DURATION"
  else if pid = 0x005D then some "PID_CONTENT_FILTER_PROPERTY"
  else if pid = 0x005E then some "PID_PARTICIPANT_ENTITY_ID"
  else if pid = 0x0060 then some "PID_GROUP_GUID"
  else if pid = 0x0061 then some "PID_GROUP_ENTITYID"
  else if pid = 0x0062 then some "PID_BUILTIN_ENDPOINT_SET"
  else if pid = 0x0063 then some "PID_PROPERTY_LIST"
  else if pid = 0x0071 then some "PID_TYPE_MAX_SIZE_SERIALIZED"
  else if pid = 0x0072 then some "PID_ENTITY_NAME"
  else if pid = 0x0073 then some "PID_KEY_HASH"
  else if pid = 0x0074 then some "PID_STATUS_INFO"
  else if pid = 0x0075 then some "PID_CONTENT_FILTER_INFO"
  else if pid = 0x8000 then some "PID_RELATED_SAMPLE_IDENTITY"
  else if pid = 0x8001 then some "PID_TOPIC_QUERY_GUID"
  else if pid = 0x8002 then some "PID_DATA_REPRESENTATION"
  else if pid = 0x8003 then some "PID_TYPE_CONSISTENCY_ENFORCEMENT"
  else if pid = 0x8004 then some "PID_TYPE_INFORMATION"
  else if pid = 0x8005 then some "PID_TYPE_OBJECT"
  else if pid = 0x8007 then some "PID_DATA_TAGS"
  else if pid = 0x8014 then some "PID_EXTENDED_BUILTIN_ENDPOINTS"
  else if pid = 0x8016 then some "PID_PRODUCT_VERSION"
  else if pid = 0x8017 then some "PID_PLUGIN_PROMISCUITY_KIND"
  else if pid = 0x8018 then some "PID_ENTITY_VIRTUAL_GUID"
  else if pid = 0x8019 then some "PID_SERVICE_INSTANCE_NAME"
  else none

/-- `REQUIRED_SEDP_WRITER_PIDS` from the source, in insertion order. -/
def REQUIRED_SEDP_WRITER_PIDS : List (Nat × String) :=
  [(0x005A, "PID_ENDPOINT_GUID"), (0x0003, "PID_TOPIC_NAME"), (0x0004, "PID_TYPE_NAME"),
   (0x001A, "PID_RELIABILITY"), (0x001D, "PID_DURABILITY")]

/-- `REQUIRED_SEDP_READER_PIDS` from the source, in insertion order. -/
def REQUIRED_SEDP_READER_PIDS : List (Nat × String) :=
  [(0x005A, "PID_ENDPOINT_GUID"), (0x0003, "PID_TOPIC_NAME"), (0x0004, "PID_TYPE_NAME"),
   (0x001A, "PID_RELIABILITY"), (0x001D, "PID_DURABILITY")]

/-- One decoded parameter of a CDR parameter list (the `param` dictionary of
the source; the optional `decoded` key becomes an `Option` field). -/
structure Param where
  pid : Nat
  name : String
  length : Nat
  value : List Nat
  offset : Nat
  decoded : Option String
deriving DecidableEq, Repr

/-- `(length + 3) & ~3` from the source: `length` rounded up to the next
multiple of 4. -/
def pad4 (n : Nat) : Nat := (n + 3) / 4 * 4

/-- The string decode used for `PID_TOPIC_NAME` / `PID_TYPE_NAME` values:
a 4-byte little-endian length prefix followed by a null-terminated UTF-8
string.  Python's `struct.unpack('<I', param_value[:4])` raises exactly when
fewer than 4 bytes are present (caught, producing `"<decode error>"`); the
slice `param_value[4:4 + str_len - 1]` clamps and the `errors='ignore'`
decode never raises. -/
def decode_string_param (v : List Nat) : String :=
  if v.length < 4 then "<decode error>"
  else
    let str_len := le32 (v.getD 0 0) (v.getD 1 0) (v.getD 2 0) (v.getD 3 0)
    ⟨utf8Ignore (listSlice v 4 (4 + str_len - 1))⟩

/-- The durability-kind rendering of the source (`durability_map.get`). -/
def durabilityName (kind : Nat) : String :=
  if kind = 0 then "VOLATILE"
  else if kind = 1 then "TRANSIENT_LOCAL"
  else if kind = 2 then "TRANSIENT"
  else if kind = 3 then "PERSISTENT"
  else "UNKNOWN(" ++ toString kind ++ ")"

/-- The per-pid semantic decode of `parse_cdr_parameter_list`: topic/type
name, endpoint GUID (first 16 bytes as hex), reliability kind, durability
kind; every other pid gets no decoded value. -/
def param_decoded (pid : Nat) (value : List Nat) : Option String :=
  if pid = 0x0003 then some (decode_string_param value)
  else if pid = 0x0004 then some (decode_string_param value)
  else if pid = 0x005A then
    if 16 ≤ value.length then some (bytesHex (value.take 16)) else none
  else if pid = 0x001A then
    if 12 ≤ value.length then
      some (if le32 (value.getD 0 0) (value.getD 1 0) (value.getD 2 0) (value.getD 3 0) = 1
            then "RELIABLE" else "BEST_EFFORT")
    else none
  else if pid = 0x001D then
    if 4 ≤ value.length then
      some (durabilityName (le32 (value.getD 0 0) (value.getD 1 0) (value.getD 2 0) (value.getD 3 0)))
    else none
  else none

/-- The `while offset + 4 <= len(data)` loop of `parse_cdr_parameter_list`,
fuel-indexed (the cursor advances by at least 4 each step, so any fuel of at
least the buffer length is enough). -/
def cdr_loop (data : List Nat) : Nat → Nat → List Param
  | 0, _ => []
  | fuel + 1, offset =>
    if offset + 4 ≤ data.length then
      let pid := le16 (data.getD offset 0) (data.getD (offset + 1) 0)
      let len := le16 (data.getD (offset + 2) 0) (data.getD (offset + 3) 0)
      if pid = 0x0001 then []
      else
        let value := if offset + 4 + len ≤ data.length
                     then listSlice data (offset + 4) (offset + 4 + len) else []
        { pid := pid,
          name := (PID_MAP pid).getD ("UNKNOWN_0x" ++ hex4Upper pid),
          length := len,
          value := value,
          offset := offset,
          decoded := param_decoded pid value } :: cdr_loop data fuel (offset + 4 + pad4 len)
    else []

/-- `parse_cdr_parameter_list` from the source: skip the 4-byte CDR
encapsulation header (whose first two bytes are read but never used by the
source) and walk pid/length/value records from offset 4. -/
def parse_cdr_parameter_list (data : List Nat) : List Param :=
  if data.length < 4 then [] else cdr_loop data (data.length + 1) 4

/-- One RTPS submessage (the `submsg` dictionary of the source); the keys
populated only for DATA submessages with a body of at least 20 bytes become
`Option` fields. -/
structure Submsg where
  id : Nat
  flags : Nat
  length : Nat
  data : List Nat
  offset : Nat
  extra_flags : Option Nat
  octets_to_inline_qos : Option Nat
  reader_id : Option Nat
  writer_id : Option Nat
  sequence_number : Option Nat
  entity_type : Option String
  payload : Option (List Nat)
deriving DecidableEq, Repr

/-- Build one submessage record as the body of `parse_submessages` does:
the DATA fields are populated exactly when the kind id is
`RTPS_SUBMSG_DATA` and the body has at least 20 bytes. -/
def mk_submsg (submsg_id flags octets_to_next : Nat) (submsg_data : List Nat) (offset : Nat) : Submsg :=
  if submsg_id = RTPS_SUBMSG_DATA ∧ 20 ≤ submsg_data.length then
    let qos_offset := le16 (submsg_data.getD 2 0) (submsg_data.getD 3 0)
    let writer := be32 (submsg_data.getD 8 0) (submsg_data.getD 9 0)
                       (submsg_data.getD 10 0) (submsg_data.getD 11 0)
    { id := submsg_id, flags := flags, length := octets_to_next,
      data := submsg_data, offset := offset,
      extra_flags := some (le16 (submsg_data.getD 0 0) (submsg_data.getD 1 0)),
      octets_to_inline_qos := some qos_offset,
      reader_id := some (be32 (submsg_data.getD 4 0) (submsg_data.getD 5 0)
                              (submsg_data.getD 6 0) (submsg_data.getD 7 0)),
      writer_id := some writer,
      sequence_number := some (le64 (submsg_data.getD 12 0) (submsg_data.getD 13 0)
                                    (submsg_data.getD 14 0) (submsg_data.getD 15 0)
                                    (submsg_data.getD 16 0) (submsg_data.getD 17 0)
                                    (submsg_data.getD 18 0) (submsg_data.getD 19 0)),
      entity_type := some (classify_entity_id writer),
      payload := some (if 20 ≤ qos_offset then submsg_data.drop qos_offset
                       else submsg_data.drop 20) }
  else
    { id := submsg_id, flags := flags, length := octets_to_next,
      data := submsg_data, offset := offset,
      extra_flags := none, octets_to_inline_qos := none, reader_id := none,
      writer_id := none, sequence_number := none, entity_type := none, payload := none }

/-- The `while offset < len(data)` loop of `parse_submessages`, fuel-indexed
(the cursor advances by at least 4 each step).  The loop body runs exactly
when `offset + 4 ≤ len(data)` (the source's two checks combined); a
submessage with declared length 0 is emitted and then terminates the walk. -/
def submsg_loop (data : List Nat) : Nat → Nat → List Submsg
  | 0, _ => []
  | fuel + 1, offset =>
    if offset + 4 ≤ data.length then
      let submsg_id := data.getD offset 0
      let flags := data.getD (offset + 1) 0
      let octets_to_next := le16 (data.getD (offset + 2) 0) (data.getD (offset + 3) 0)
      let submsg_data := if 0 < octets_to_next
                         then listSlice data (offset + 4) (offset + 4 + octets_to_next) else []
      let s := mk_submsg submsg_id flags octets_to_next submsg_data offset
      if octets_to_next = 0 then [s]
      else s :: submsg_loop data fuel (offset + 4 + octets_to_next)
    else []

/-- `parse_submessages` from the source. -/
def parse_submessages (data : List Nat) (offset : Nat) : List Submsg :=
  submsg_loop data (data.length + 1) offset

/-- One packet record produced by `read_pcap` (the Python float timestamp
`ts_sec + ts_usec / 1e6` is kept as its two integer components). -/
structure PcapPacket where
  num : Nat
  ts_sec : Nat
  ts_usec : Nat
  data : List Nat
  size : Nat
deriving DecidableEq, Repr

/-- A 32-bit integer field of the pcap headers, read little- or big-endian
according to the magic (`struct.unpack(f'{endian}IIII', ...)`). -/
def pcapU32 (little : Bool) (b0 b1 b2 b3 : Nat) : Nat :=
  if little then le32 b0 b1 b2 b3 else be32 b0 b1 b2 b3

/-- The `while True` record loop of `read_pcap`, fuel-indexed (each
iteration consumes at least 16 bytes).  `rest` is the unread remainder of
the file and `num` the number of packets already produced.  Returns the
packets together with the warnings the source would print: a file ending
inside a 16-byte record header ends iteration silently, while frame data
shorter than the declared captured length prints a truncation warning and
stops. -/
def pcap_loop (little : Bool) : Nat → List Nat → Nat → List PcapPacket × List String
  | 0, _, _ => ([], [])
  | fuel + 1, rest, num =>
    if rest.length < 16 then ([], [])
    else
      let ts_sec := pcapU32 little (rest.getD 0 0) (rest.getD 1 0) (rest.getD 2 0) (rest.getD 3 0)
      let ts_usec := pcapU32 little (rest.getD 4 0) (rest.getD 5 0) (rest.getD 6 0) (rest.getD 7 0)
      let incl_len := pcapU32 little (rest.getD 8 0) (rest.getD 9 0) (rest.getD 10 0) (rest.getD 11 0)
      let body := rest.drop 16
      let pkt_data := body.take incl_len
      if pkt_data.length < incl_len then
        ([], ["Warning: Packet " ++ toString (num + 1) ++ " truncated"])
      else
        let r := pcap_loop little fuel (body.drop incl_len) (num + 1)
        ({ num := num + 1, ts_sec := ts_sec, ts_usec := ts_usec,
           data := pkt_data, size := incl_len } :: r.1, r.2)

/-- `read_pcap` from the source, on the file's bytes: a header shorter than
24 bytes or an unrecognized magic raises `ValueError` (modelled as
`Except.error` with the same message); otherwise the record loop runs with
the endianness the magic selects (`orig_len` is read but unused). -/
def read_pcap (bytes : List Nat) : Except String (List PcapPacket × List String) :=
  if bytes.length < 24 then .error "Invalid pcap file: header too short"
  else
    let magic := le32 (bytes.getD 0 0) (bytes.getD 1 0) (bytes.getD 2 0) (bytes.getD 3 0)
    if magic = 0xa1b2c3d4 then .ok (pcap_loop true (bytes.length + 1) (bytes.drop 24) 0)
    else if magic = 0xd4c3b2a1 then .ok (pcap_loop false (bytes.length + 1) (bytes.drop 24) 0)
    else .error ("Invalid pcap magic: " ++ hex8Lower magic)

/-- Whether an `Except` value is an error. -/
def exceptIsError {ε α : Type} : Except ε α → Bool
  | .error _ => true
  | .ok _ => false

/-- Python `req_pid in found_pids` where `found_pids = {p['pid'] for p in params}`. -/
def pid_present (params : List Param) (pid : Nat) : Bool :=
  params.any (fun p => p.pid == pid)

/-- The contribution of one parameter to the empty/invalid-name checks of
`validate_sedp_packet` (the topic check precedes the type check, as in the
source's loop body). -/
def name_issue (p : Param) : List String :=
  (if p.pid = 0x0003 ∧ (p.decoded.getD "" = "" ∨ p.decoded.getD "" = "<decode error>")
   then ["Empty or invalid TOPIC_NAME"] else [])
  ++ (if p.pid = 0x0004 ∧ (p.decoded.getD "" = "" ∨ p.decoded.getD "" = "<decode error>")
      then ["Empty or invalid TYPE_NAME"] else [])

/-- The body of `validate_sedp_packet` after the required-PIDs table has
been selected: missing-PID issues (in table order), then name issues (in
parameter order), then the zero-sequence-number warning. -/
def validate_findings (required : List (Nat × String)) (submsg : Submsg) (params : List Param) :
    List String × List String :=
  let missing := required.filterMap (fun rp =>
    if pid_present params rp.1 then none
    else some ("Missing required PID: " ++ rp.2 ++ " (0x" ++ hex4Upper rp.1 ++ ")"))
  let nameIssues := params.flatMap name_issue
  let warnings := if submsg.sequence_number.getD 0 = 0
                  then ["Sequence number is 0 (should start from 1 for Reliable QoS)"] else []
  (missing ++ nameIssues, warnings)

/-- `validate_sedp_packet` from the source: only submessages classified
SEDP_PUB or SEDP_SUB are checked, all others produce an empty result. -/
def validate_sedp_packet (submsg : Submsg) (params : List Param) : List String × List String :=
  if submsg.entity_type = some "SEDP_PUB" then
    validate_findings REQUIRED_SEDP_WRITER_PIDS submsg params
  else if submsg.entity_type = some "SEDP_SUB" then
    validate_findings REQUIRED_SEDP_READER_PIDS submsg params
  else ([], [])

/-- Concrete buffer refuting the original C1 invariant: one submessage
header declaring 10 body bytes in a 4-byte buffer. -/
def c1buf : List Nat := [0x15, 0x00, 0x0A, 0x00]

/-- Buffer for the C1 witness: one submessage with a 2-byte in-bounds body. -/
def c1wbuf : List Nat := [0x15, 0x00, 0x02, 0x00, 0x09, 0x09]

/-- The submessage `parse_submessages c1wbuf 0` yields. -/
def c1wsub : Submsg :=
  { id := 0x15, flags := 0, length := 2, data := [0x09, 0x09], offset := 0,
    extra_flags := none, octets_to_inline_qos := none, reader_id := none,
    writer_id := none, sequence_number := none, entity_type := none, payload := none }

/-- A parameter list whose topic-name value is malformed: its 4-byte string
length prefix (100) exceeds the 4 value bytes that follow it. -/
def c2buf : List Nat :=
  [0x00, 0x01, 0x00, 0x00,
   0x03, 0x00, 0x08, 0x00,
   100, 0, 0, 0, 97, 98, 99, 100,
   0x01, 0x00, 0x00, 0x00]

/-- A parameter list whose type-name value has only 2 bytes (shorter than
the 4-byte length prefix), which is the case that does produce the decode
error marker. -/
def c2wbuf : List Nat :=
  [0x00, 0x01, 0x00, 0x00,
   0x04, 0x00, 0x02, 0x00,
   0x07, 0x07, 0x00, 0x00,
   0x01, 0x00, 0x00, 0x00]

/-- The parameter `parse_cdr_parameter_list c2wbuf` yields. -/
def c2wparam : Param :=
  { pid := 0x0004, name := "PID_TYPE_NAME", length := 2, value := [0x07, 0x07],
    offset := 4, decoded := some "<decode error>" }

/-- A DATA submessage classified SEDP_PUB with sequence number 1 (only the
fields the validator reads matter to `validate_sedp_packet`). -/
def c3sub : Submsg :=
  { id := 0x15, flags := 0, length := 24, data := [], offset := 0,
    extra_flags := none, octets_to_inline_qos := none, reader_id := none,
    writer_id := none, sequence_number := some 1,
    entity_type := some "SEDP_PUB", payload := none }

/-- A parameter set carrying endpoint GUID, topic name, type name, and
reliability/durability at the ids `PID_MAP` assigns those names
(0x0011 and 0x0007), with well-formed decoded names. -/
def c3cexparams : List Param :=
  [{ pid := 0x005A, name := "PID_ENDPOINT_GUID", length := 16, value := [], offset := 8, decoded := none },
   { pid := 0x0003, name := "PID_TOPIC_NAME", length := 8, value := [], offset := 28, decoded := some "T" },
   { pid := 0x0004, name := "PID_TYPE_NAME", length := 8, value := [], offset := 40, decoded := some "Ty" },
   { pid := 0x0011, name := "PID_RELIABILITY", length := 12, value := [], offset := 52, decoded := some "RELIABLE" },
   { pid := 0x0007, name := "PID_DURABILITY", length := 4, value := [], offset := 68, decoded := some "VOLATILE" }]

/-- A parameter set carrying all five pids the required tables actually
list (0x005A, 0x0003, 0x0004, 0x001A, 0x001D), with well-formed names. -/
def c3wparams : List Param :=
  [{ pid := 0x005A, name := "PID_ENDPOINT_GUID", length := 16, value := [], offset := 8, decoded := none },
   { pid := 0x0003, name := "PID_TOPIC_NAME", length := 8, value := [], offset := 28, decoded := some "T" },
   { pid := 0x0004, name := "PID_TYPE_NAME", length := 8, value := [], offset := 40, decoded := some "Ty" },
   { pid := 0x001A, name := "PID_RELIABILITY", length := 12, value := [], offset := 52, decoded := some "RELIABLE" },
   { pid := 0x001D, name := "PID_DURABILITY", length := 4, value := [], offset := 68, decoded := some "VOLATILE" }]

/-- A pcap record stream whose single record header declares 5 captured
bytes while only 3 remain. -/
def c4wrest : List Nat :=
  [0, 0, 0, 0, 0, 0, 0, 0, 5, 0, 0, 0, 5, 0, 0, 0, 1, 2, 3]

/-- A parameter list hitting the sentinel at offset 4 with further bytes
after it. -/
def c5wbuf : List Nat := [0x00, 0x01, 0x00, 0x00, 0x01, 0x00, 0x00, 0x00, 9, 9, 9, 9]

/-- A parameter list whose (non-sentinel) record at offset 4 declares 8
value bytes but the buffer ends right after the record header. -/
def c9wbuf : List Nat := [0x00, 0x01, 0x00, 0x00, 0x03, 0x00, 0x08, 0x00]

/-- Body of the DATA submessage used by the C6 witness: extra flags 1,
octets-to-inline-QoS 0, reader id 0x000004C7, writer id 0x000003C2,
sequence number 5, then 4 payload bytes. -/
def c6body : List Nat :=
  [1, 0, 0, 0,
   0x00, 0x00, 0x04, 0xC7,
   0x00, 0x00, 0x03, 0xC2,
   5, 0, 0, 0, 0, 0, 0, 0,
   7, 7, 7, 7]

/-- Buffer holding one DATA submessage with body `c6body`. -/
def c6buf : List Nat := [0x15, 0x03, 24, 0x00] ++ c6body

/-- The submessage `parse_submessages c6buf 0` yields. -/
def c6sub : Submsg :=
  { id := 0x15, flags := 3, length := 24, data := c6body, offset := 0,
    extra_flags := some 1, octets_to_inline_qos := some 0,
    reader_id := some 0x000004C7, writer_id := some 0x000003C2,
    sequence_number := some 5, entity_type := some "SEDP_PUB",
    payload := some [7, 7, 7, 7] }

/-- A DATA submessage classified SEDP_SUB with sequence number 0. -/
def c8sub : Submsg :=
  { id := 0x15, flags := 0, length := 24, data := [], offset := 0,
    extra_flags := none, octets_to_inline_qos := none, reader_id := none,
    writer_id := none, sequence_number := some 0,
    entity_type := some "SEDP_SUB", payload := none }

/-- A parameter set with all five required pids and well-formed names. -/
def c8params : List Param :=
  [{ pid := 0x005A, name := "PID_ENDPOINT_GUID", length := 16, value := [], offset := 8, decoded := none },
   { pid := 0x0003, name := "PID_TOPIC_NAME", length := 12, value := [], offset := 28, decoded := some "Chatter" },
   { pid := 0x0004, name := "PID_TYPE_NAME", length := 8, value := [], offset := 44, decoded := some "Msg" },
   { pid := 0x001A, name := "PID_RELIABILITY", length := 12, value := [], offset := 56, decoded := some "RELIABLE" },
   { pid := 0x001D, name := "PID_DURABILITY", length := 4, value := [], offset := 72, decoded := some "TRANSIENT_LOCAL" }]

/-- A capture file: valid little-endian magic, one complete 2-byte record,
then 5 leftover bytes (a partial next record header). -/
def c10file : List Nat :=
  [0xd4, 0xc3, 0xb2, 0xa1] ++ List.replicate 20 0 ++
  [0, 0, 0, 0, 0, 0, 0, 0, 2, 0, 0, 0, 2, 0, 0, 0] ++
  [0xAB, 0xCD] ++ [1, 2, 3, 4, 5]

/-- The single packet `read_pcap c10file` produces. -/
def c10pkt : PcapPacket :=
  { num := 1, ts_sec := 0, ts_usec := 0, data := [0xAB, 0xCD], size := 2 }

theorem listSlice_length (data : List Nat) (a b : Nat) :
    (listSlice data a b).length = min b data.length - a := by
  simp [listSlice]

theorem pad4_ge (n : Nat) : n ≤ pad4 n := by
  unfold pad4; omega

theorem mk_submsg_proj (i f l : Nat) (d : List Nat) (o : Nat) :
    (mk_submsg i f l d o).id = i ∧ (mk_submsg i f l d o).length = l ∧
    (mk_submsg i f l d o).data = d ∧ (mk_submsg i f l d o).offset = o := by
  unfold mk_submsg; split <;> exact ⟨rfl, rfl, rfl, rfl⟩

/-- Every submessage the walking loop yields is `mk_submsg` applied to the
header bytes found at an in-bounds offset, with the body sliced (clamped)
from the buffer. -/
theorem submsg_loop_shape (data : List Nat) :
    ∀ fuel offset s, s ∈ submsg_loop data fuel offset →
    ∃ o oc, s = mk_submsg (data.getD o 0) (data.getD (o + 1) 0) oc
        (if 0 < oc then listSlice data (o + 4) (o + 4 + oc) else []) o ∧
      oc = le16 (data.getD (o + 2) 0) (data.getD (o + 3) 0) ∧ o + 4 ≤ data.length := by
  intro fuel
  induction fuel with
  | zero => intro offset s h; simp [submsg_loop] at h
  | succ f ih =>
    intro offset s h
    simp only [submsg_loop] at h
    by_cases hg : offset + 4 ≤ data.length
    · rw [if_pos hg] at h
      by_cases hoc : le16 (data.getD (offset + 2) 0) (data.getD (offset + 3) 0) = 0
      · rw [if_pos hoc] at h
        simp only [List.mem_singleton] at h
        exact ⟨offset, _, h, rfl, hg⟩
      · rw [if_neg hoc] at h
        rcases List.mem_cons.mp h with h1 | h1
        · exact ⟨offset, _, h1, rfl, hg⟩
        · exact ih _ s h1
    · rw [if_neg hg] at h
      simp at h

/-- Claim C1 (amended): for every buffer and starting offset, each
submessage the walker yields has its header fully inside the buffer and its
raw body contained in the buffer (`origin_offset + 4 + len(body) ≤ buffer
length`), so the walker never reads past the end of the buffer; the
*declared* length, however, may overrun the buffer, in which case the body
is silently clamped (see the counterexample). -/
theorem claim_C1 (data : List Nat) (offset : Nat) (s : Submsg)
    (h : s ∈ parse_submessages data offset) :
    s.offset + 4 ≤ data.length ∧ s.offset + 4 + s.data.length ≤ data.length := by
  obtain ⟨o, oc, hs, hoc, hbound⟩ := submsg_loop_shape data (data.length + 1) offset s h
  obtain ⟨hid, hlen, hdata, hoff⟩ := mk_submsg_proj (data.getD o 0) (data.getD (o + 1) 0) oc
    (if 0 < oc then listSlice data (o + 4) (o + 4 + oc) else []) o
  rw [hs, hdata, hoff]
  constructor
  · exact hbound
  · by_cases h0 : 0 < oc
    · rw [if_pos h0, listSlice_length]; omega
    · rw [if_neg h0]; simpa using hbound

/-- Claim C1, counterexample to the original statement: on the 4-byte
buffer `c1buf` the walker yields a submessage with origin offset 0 and
declared length 10, and `0 + 4 + 10 > 4`. -/
theorem claim_C1_counterexample :
    ¬ (∀ s ∈ parse_submessages c1buf 0, s.offset + 4 + s.length ≤ c1buf.length) := by
  decide

theorem claim_C1_witness :
    c1wsub ∈ parse_submessages c1wbuf 0 ∧
    (c1wsub.offset + 4 ≤ c1wbuf.length ∧ c1wsub.offset + 4 + c1wsub.data.length ≤ c1wbuf.length) :=
  ⟨by decide, claim_C1 c1wbuf 0 c1wsub (by decide)⟩

theorem mk_submsg_data_fields (i f l : Nat) (d : List Nat) (o : Nat)
    (hid : i = RTPS_SUBMSG_DATA) (hlen : 20 ≤ d.length) :
    (mk_submsg i f l d o).extra_flags = some (le16 (d.getD 0 0) (d.getD 1 0)) ∧
    (mk_submsg i f l d o).octets_to_inline_qos = some (le16 (d.getD 2 0) (d.getD 3 0)) ∧
    (mk_submsg i f l d o).reader_id =
      some (be32 (d.getD 4 0) (d.getD 5 0) (d.getD 6 0) (d.getD 7 0)) ∧
    (mk_submsg i f l d o).writer_id =
      some (be32 (d.getD 8 0) (d.getD 9 0) (d.getD 10 0) (d.getD 11 0)) ∧
    (mk_submsg i f l d o).sequence_number =
      some (le64 (d.getD 12 0) (d.getD 13 0) (d.getD 14 0) (d.getD 15 0)
                 (d.getD 16 0) (d.getD 17 0) (d.getD 18 0) (d.getD 19 0)) ∧
    (mk_submsg i f l d o).payload =
      some (if 20 ≤ le16 (d.getD 2 0) (d.getD 3 0)
            then d.drop (le16 (d.getD 2 0) (d.getD 3 0)) else d.drop 20) := by
  unfold mk_submsg
  rw [if_pos ⟨hid, hlen⟩]
  exact ⟨rfl, rfl, rfl, rfl, rfl, rfl⟩

/-- Claim C6: every submessage the walker yields whose kind id is the DATA
kind and whose body has at least 20 bytes carries the DATA fields decoded
from its body: extra flags (bytes 0-1, 16-bit LE), octets-to-inline-QoS
(bytes 2-3, 16-bit LE), reader entity id (bytes 4-7, 32-bit BE), writer
entity id (bytes 8-11, 32-bit BE), sequence number (bytes 12-19 as one
64-bit LE integer), and the payload starting at the octets-to-inline-QoS
offset when that offset is at least 20, otherwise at the fixed offset 20. -/
theorem claim_C6 (data : List Nat) (offset : Nat) (s : Submsg)
    (h : s ∈ parse_submessages data offset)
    (hid : s.id = RTPS_SUBMSG_DATA) (hlen : 20 ≤ s.data.length) :
    s.extra_flags = some (le16 (s.data.getD 0 0) (s.data.getD 1 0)) ∧
    s.octets_to_inline_qos = some (le16 (s.data.getD 2 0) (s.data.getD 3 0)) ∧
    s.reader_id =
      some (be32 (s.data.getD 4 0) (s.data.getD 5 0) (s.data.getD 6 0) (s.data.getD 7 0)) ∧
    s.writer_id =
      some (be32 (s.data.getD 8 0) (s.data.getD 9 0) (s.data.getD 10 0) (s.data.getD 11 0)) ∧
    s.sequence_number =
      some (le64 (s.data.getD 12 0) (s.data.getD 13 0) (s.data.getD 14 0) (s.data.getD 15 0)
                 (s.data.getD 16 0) (s.data.getD 17 0) (s.data.getD 18 0) (s.data.getD 19 0)) ∧
    s.payload =
      some (if 20 ≤ le16 (s.data.getD 2 0) (s.data.getD 3 0)
            then s.data.drop (le16 (s.data.getD 2 0) (s.data.getD 3 0)) else s.data.drop 20) := by
  obtain ⟨o, oc, hs, hoc, hbound⟩ := submsg_loop_shape data (data.length + 1) offset s h
  obtain ⟨hi, hl, hdata, hoff⟩ := mk_submsg_proj (data.getD o 0) (data.getD (o + 1) 0) oc
    (if 0 < oc then listSlice data (o + 4) (o + 4 + oc) else []) o
  have hid2 : data.getD o 0 = RTPS_SUBMSG_DATA := by rw [hs, hi] at hid; exact hid
  have hlen2 : 20 ≤ (if 0 < oc then listSlice data (o + 4) (o + 4 + oc) else []).length := by
    rw [hs, hdata] at hlen; exact hlen
  have hfields := mk_submsg_data_fields (data.getD o 0) (data.getD (o + 1) 0) oc
    (if 0 < oc then listSlice data (o + 4) (o + 4 + oc) else []) o hid2 hlen2
  rw [hs, hdata]
  exact hfields

theorem claim_C6_witness :
    (c6sub ∈ parse_submessages c6buf 0 ∧ c6sub.id = RTPS_SUBMSG_DATA ∧ 20 ≤ c6sub.data.length) ∧
    (c6sub.extra_flags = some (le16 (c6sub.data.getD 0 0) (c6sub.data.getD 1 0)) ∧
     c6sub.octets_to_inline_qos = some (le16 (c6sub.data.getD 2 0) (c6sub.data.getD 3 0)) ∧
     c6sub.reader_id = some (be32 (c6sub.data.getD 4 0) (c6sub.data.getD 5 0)
                                  (c6sub.data.getD 6 0) (c6sub.data.getD 7 0)) ∧
     c6sub.writer_id = some (be32 (c6sub.data.getD 8 0) (c6sub.data.getD 9 0)
                                  (c6sub.data.getD 10 0) (c6sub.data.getD 11 0)) ∧
     c6sub.sequence_number =
       some (le64 (c6sub.data.getD 12 0) (c6sub.data.getD 13 0) (c6sub.data.getD 14 0)
                  (c6sub.data.getD 15 0) (c6sub.data.getD 16 0) (c6sub.data.getD 17 0)
                  (c6sub.data.getD 18 0) (c6sub.data.getD 19 0)) ∧
     c6sub.payload = some (if 20 ≤ le16 (c6sub.data.getD 2 0) (c6sub.data.getD 3 0)
                           then c6sub.data.drop (le16 (c6sub.data.getD 2 0) (c6sub.data.getD 3 0))
                           else c6sub.data.drop 20)) :=
  ⟨⟨by decide, by decide, by decide⟩,
   claim_C6 c6buf 0 c6sub (by decide) (by decide) (by decide)⟩

/-- Claim C7: `classify_entity_id` is total on entity ids with range
{SPDP, SEDP_PUB, SEDP_SUB, BUILTIN, USER}; it maps 0x000003C2 to SEDP_PUB,
0x000001C1 to SPDP, and every id absent from the `ENTITY_IDS` table
(0xDEADBEEF among them) to USER. -/
theorem claim_C7 :
    classify_entity_id 0x000003C2 = "SEDP_PUB" ∧
    classify_entity_id 0x000001C1 = "SPDP" ∧
    classify_entity_id 0xDEADBEEF = "USER" ∧
    (∀ e, ENTITY_IDS e = none → classify_entity_id e = "USER") ∧
    (∀ e, classify_entity_id e ∈ ["SPDP", "SEDP_PUB", "SEDP_SUB", "BUILTIN", "USER"]) := by
  refine ⟨by decide, by decide, by decide, ?_, ?_⟩
  · intro e h
    unfold classify_entity_id
    rw [h]
  · intro e
    unfold classify_entity_id ENTITY_IDS
    split_ifs <;> decide

theorem claim_C7_witness :
    ENTITY_IDS 0xABCDEF12 = none ∧ classify_entity_id 0xABCDEF12 = "USER" :=
  ⟨by decide, claim_C7.2.2.2.1 0xABCDEF12 (by decide)⟩

/-- Every parameter the CDR loop yields records the pid/length read at its
(in-bounds, non-sentinel) offset, the clamped value slice, and the semantic
decode of that value. -/
theorem cdr_loop_mem (data : List Nat) :
    ∀ fuel offset p, p ∈ cdr_loop data fuel offset →
    p.pid = le16 (data.getD p.offset 0) (data.getD (p.offset + 1) 0) ∧
    p.length = le16 (data.getD (p.offset + 2) 0) (data.getD (p.offset + 3) 0) ∧
    p.value = (if p.offset + 4 + p.length ≤ data.length
               then listSlice data (p.offset + 4) (p.offset + 4 + p.length) else []) ∧
    p.decoded = param_decoded p.pid p.value ∧
    p.offset + 4 ≤ data.length ∧ p.pid ≠ 0x0001 := by
  intro fuel
  induction fuel with
  | zero => intro offset p h; simp [cdr_loop] at h
  | succ f ih =>
    intro offset p h
    simp only [cdr_loop] at h
    by_cases hg : offset + 4 ≤ data.length
    · rw [if_pos hg] at h
      by_cases hs : le16 (data.getD offset 0) (data.getD (offset + 1) 0) = 0x0001
      · rw [if_pos hs] at h
        simp at h
      · rw [if_neg hs] at h
        rcases List.mem_cons.mp h with h1 | h1
        · subst h1
          exact ⟨rfl, rfl, rfl, rfl, hg, hs⟩
        · exact ih _ p h1
    · rw [if_neg hg] at h
      simp at h

/-- Claim C5: CDR parameter-list decoding halts exactly at the first record
whose 16-bit LE parameter id is the sentinel 0x0001 — it emits nothing for
the sentinel and nothing after it, even if further bytes remain — and for a
non-sentinel record it emits one parameter carrying that record's pid,
declared length and offset and advances the cursor by `4 + pad4(length)`;
no parameter the decoder returns ever has the sentinel pid. -/
theorem claim_C5 (data : List Nat) (fuel offset : Nat) :
    (offset + 4 ≤ data.length →
     le16 (data.getD offset 0) (data.getD (offset + 1) 0) = 0x0001 →
     cdr_loop data fuel offset = []) ∧
    (offset + 4 ≤ data.length →
     le16 (data.getD offset 0) (data.getD (offset + 1) 0) ≠ 0x0001 →
     ∃ p, cdr_loop data (fuel + 1) offset =
          p :: cdr_loop data fuel
            (offset + 4 + pad4 (le16 (data.getD (offset + 2) 0) (data.getD (offset + 3) 0))) ∧
       p.pid = le16 (data.getD offset 0) (data.getD (offset + 1) 0) ∧
       p.length = le16 (data.getD (offset + 2) 0) (data.getD (offset + 3) 0) ∧
       p.offset = offset) ∧
    (∀ p ∈ parse_cdr_parameter_list data, p.pid ≠ 0x0001) := by
  refine ⟨?_, ?_, ?_⟩
  · intro hg hs
    cases fuel with
    | zero => rfl
    | succ f =>
      simp only [cdr_loop]
      rw [if_pos hg, if_pos hs]
  · intro hg hs
    simp only [cdr_loop]
    rw [if_pos hg, if_neg hs]
    exact ⟨_, rfl, rfl, rfl, rfl⟩
  · intro p hp
    unfold parse_cdr_parameter_list at hp
    by_cases h4 : data.length < 4
    · rw [if_pos h4] at hp; simp at hp
    · rw [if_neg h4] at hp
      exact (cdr_loop_mem data (data.length + 1) 4 p hp).2.2.2.2.2

theorem claim_C5_witness :
    (4 + 4 ≤ c5wbuf.length ∧ le16 (c5wbuf.getD 4 0) (c5wbuf.getD 5 0) = 0x0001) ∧
    cdr_loop c5wbuf 9 4 = [] :=
  ⟨⟨by decide, by decide⟩, (claim_C5 c5wbuf 9 4).1 (by decide) (by decide)⟩

/-- Claim C9: a non-sentinel parameter record whose declared length extends
past the end of the buffer is still emitted — with its raw value the empty
byte string, never a partial slice — and it is the last parameter emitted,
because the cursor then moves past the end of the buffer; in general every
parameter the decoder returns whose record overruns the buffer has an
empty value. -/
theorem claim_C9 (data : List Nat) (fuel offset : Nat) :
    (offset + 4 ≤ data.length →
     le16 (data.getD offset 0) (data.getD (offset + 1) 0) ≠ 0x0001 →
     data.length < offset + 4 + le16 (data.getD (offset + 2) 0) (data.getD (offset + 3) 0) →
     ∃ p, cdr_loop data (fuel + 1) offset = [p] ∧ p.value = [] ∧ p.offset = offset ∧
       p.length = le16 (data.getD (offset + 2) 0) (data.getD (offset + 3) 0)) ∧
    (∀ p ∈ parse_cdr_parameter_list data,
     data.length < p.offset + 4 + p.length → p.value = []) := by
  constructor
  · intro hg hs hover
    have htail : cdr_loop data fuel
        (offset + 4 + pad4 (le16 (data.getD (offset + 2) 0) (data.getD (offset + 3) 0))) = [] := by
      cases fuel with
      | zero => rfl
      | succ f =>
        simp only [cdr_loop]
        rw [if_neg]
        have := pad4_ge (le16 (data.getD (offset + 2) 0) (data.getD (offset + 3) 0))
        omega
    simp only [cdr_loop]
    rw [if_pos hg, if_neg hs, if_neg (by omega), htail]
    exact ⟨_, rfl, rfl, rfl, rfl⟩
  · intro p hp hover
    unfold parse_cdr_parameter_list at hp
    by_cases h4 : data.length < 4
    · rw [if_pos h4] at hp; simp at hp
    · rw [if_neg h4] at hp
      have hv := (cdr_loop_mem data (data.length + 1) 4 p hp).2.2.1
      rw [hv, if_neg (by omega)]

theorem claim_C9_witness :
    (4 + 4 ≤ c9wbuf.length ∧
     le16 (c9wbuf.getD 4 0) (c9wbuf.getD 5 0) ≠ 0x0001 ∧
     c9wbuf.length < 4 + 4 + le16 (c9wbuf.getD 6 0) (c9wbuf.getD 7 0)) ∧
    (∃ p, cdr_loop c9wbuf 9 4 = [p] ∧ p.value = [] ∧ p.offset = 4 ∧
       p.length = le16 (c9wbuf.getD 6 0) (c9wbuf.getD 7 0)) :=
  ⟨⟨by decide, by decide, by decide⟩,
   (claim_C9 c9wbuf 8 4).1 (by decide) (by decide) (by decide)⟩

theorem decode_string_param_short (v : List Nat) (h : v.length < 4) :
    decode_string_param v = "<decode error>" := by
  unfold decode_string_param
  rw [if_pos h]

theorem decode_string_param_trunc (v : List Nat) (h4 : 4 ≤ v.length)
    (hover : v.length - 4 < le32 (v.getD 0 0) (v.getD 1 0) (v.getD 2 0) (v.getD 3 0)) :
    decode_string_param v = ⟨utf8Ignore (v.drop 4)⟩ := by
  unfold decode_string_param
  rw [if_neg (by omega)]
  have hslice : listSlice v 4 (4 + le32 (v.getD 0 0) (v.getD 1 0) (v.getD 2 0) (v.getD 3 0) - 1) =
      v.drop 4 := by
    unfold listSlice
    rw [List.take_of_length_le (by omega)]
  simp only [hslice]

/-- Claim C2 (amended): the topic-name/type-name decode never raises and
always records a decoded value; the explicit `"<decode error>"` marker is
produced exactly when the raw value is shorter than its own 4-byte length
prefix (fewer than 4 bytes); when the value does have a 4-byte length
prefix whose declared string length exceeds the remaining value bytes, the
decoded value is the silently truncated decode of whatever bytes are
available after the prefix — not the decode-error marker (see the
counterexample). -/
theorem claim_C2 (data : List Nat) (p : Param) (hp : p ∈ parse_cdr_parameter_list data)
    (hpid : p.pid = 0x0003 ∨ p.pid = 0x0004) :
    p.decoded.isSome = true ∧
    (p.value.length < 4 → p.decoded = some "<decode error>") ∧
    (4 ≤ p.value.length →
     p.value.length - 4 <
       le32 (p.value.getD 0 0) (p.value.getD 1 0) (p.value.getD 2 0) (p.value.getD 3 0) →
     p.decoded = some (String.mk (utf8Ignore (p.value.drop 4)))) := by
  have hdec : p.decoded = param_decoded p.pid p.value := by
    unfold parse_cdr_parameter_list at hp
    by_cases h4 : data.length < 4
    · rw [if_pos h4] at hp; simp at hp
    · rw [if_neg h4] at hp
      exact (cdr_loop_mem data (data.length + 1) 4 p hp).2.2.2.1
  have hsp : param_decoded p.pid p.value = some (decode_string_param p.value) := by
    rcases hpid with h | h <;> simp [param_decoded, h]
  refine ⟨?_, ?_, ?_⟩
  · rw [hdec, hsp]; rfl
  · intro h4
    rw [hdec, hsp, decode_string_param_short p.value h4]
  · intro h4 hover
    rw [hdec, hsp, decode_string_param_trunc p.value h4 hover]

/-- Claim C2, counterexample to the original statement: `c2buf` carries one
topic-name parameter whose 4-byte length prefix (100) exceeds the 4
remaining value bytes, yet the decoder yields the silently truncated string
`"abcd"`, not `"<decode error>"`. -/
theorem claim_C2_counterexample :
    (parse_cdr_parameter_list c2buf).map (fun p => (p.pid, p.length, p.value, p.decoded)) =
      [(0x0003, 8, [100, 0, 0, 0, 97, 98, 99, 100], some "abcd")] := by
  decide

theorem claim_C2_witness :
    (c2wparam ∈ parse_cdr_parameter_list c2wbuf ∧
     (c2wparam.pid = 0x0003 ∨ c2wparam.pid = 0x0004) ∧ c2wparam.value.length < 4) ∧
    c2wparam.decoded = some "<decode error>" :=
  ⟨⟨by decide, by decide, by decide⟩,
   (claim_C2 c2wbuf c2wparam (by decide) (by decide)).2.1 (by decide)⟩

theorem flatMap_name_issue_nil (params : List Param)
    (h : ∀ p ∈ params, (p.pid = 0x0003 ∨ p.pid = 0x0004) →
      p.decoded.getD "" ≠ "" ∧ p.decoded.getD "" ≠ "<decode error>") :
    params.flatMap name_issue = [] := by
  induction params with
  | nil => rfl
  | cons p ps ih =>
    have hp := h p (List.mem_cons_self p ps)
    have hps := ih (fun q hq => h q (List.mem_cons_of_mem p hq))
    simp only [List.flatMap_cons, hps, List.append_nil]
    unfold name_issue
    have h3 : ¬(p.pid = 0x0003 ∧ (p.decoded.getD "" = "" ∨ p.decoded.getD "" = "<decode error>")) := by
      rintro ⟨hpid, hbad⟩
      rcases hp (Or.inl hpid) with ⟨g1, g2⟩
      rcases hbad with b | b
      exacts [g1 b, g2 b]
    have h4 : ¬(p.pid = 0x0004 ∧ (p.decoded.getD "" = "" ∨ p.decoded.getD "" = "<decode error>")) := by
      rintro ⟨hpid, hbad⟩
      rcases hp (Or.inr hpid) with ⟨g1, g2⟩
      rcases hbad with b | b
      exacts [g1 b, g2 b]
    rw [if_neg h3, if_neg h4]
    rfl

theorem validate_findings_clean (required : List (Nat × String)) (submsg : Submsg)
    (params : List Param)
    (hreq : ∀ rp ∈ required, pid_present params rp.1 = true)
    (hnames : ∀ p ∈ params, (p.pid = 0x0003 ∨ p.pid = 0x0004) →
      p.decoded.getD "" ≠ "" ∧ p.decoded.getD "" ≠ "<decode error>") :
    validate_findings required submsg params =
      ([], if submsg.sequence_number.getD 0 = 0
           then ["Sequence number is 0 (should start from 1 for Reliable QoS)"] else []) := by
  unfold validate_findings
  have h1 : required.filterMap (fun rp =>
      if pid_present params rp.1 then none
      else some ("Missing required PID: " ++ rp.2 ++ " (0x" ++ hex4Upper rp.1 ++ ")")) = [] := by
    rw [List.filterMap_eq_nil_iff]
    intro rp hrp
    rw [if_pos (hreq rp hrp)]
  simp only [h1, flatMap_name_issue_nil params hnames, List.append_nil]

/-- Claim C3 (amended): for a DATA submessage classified SEDP_PUB or
SEDP_SUB, the validator appends one missing-parameter issue exactly for
each required parameter absent from the decoded set; the required
parameters are endpoint GUID (0x005A), topic name (0x0003), type name
(0x0004), reliability and durability — the same set for both roles — but
the reliability/durability ids the required tables use are 0x001A and
0x001D, *not* the ids the program's `PID_MAP` assigns those names (0x0011
and 0x0007; see the counterexample).  With all five required ids present
there are zero issues; omitting only the topic name yields exactly one
issue identifying it. -/
theorem claim_C3 (submsg : Submsg) (params : List Param)
    (hrole : submsg.entity_type = some "SEDP_PUB" ∨ submsg.entity_type = some "SEDP_SUB")
    (hnames : ∀ p ∈ params, (p.pid = 0x0003 ∨ p.pid = 0x0004) →
      p.decoded.getD "" ≠ "" ∧ p.decoded.getD "" ≠ "<decode error>") :
    (REQUIRED_SEDP_WRITER_PIDS =
       [(0x005A, "PID_ENDPOINT_GUID"), (0x0003, "PID_TOPIC_NAME"), (0x0004, "PID_TYPE_NAME"),
        (0x001A, "PID_RELIABILITY"), (0x001D, "PID_DURABILITY")] ∧
     REQUIRED_SEDP_READER_PIDS = REQUIRED_SEDP_WRITER_PIDS) ∧
    ((∀ pid ∈ [0x005A, 0x0003, 0x0004, 0x001A, 0x001D], pid_present params pid = true) →
      (validate_sedp_packet submsg params).1 = []) ∧
    ((pid_present params 0x005A = true ∧ pid_present params 0x0004 = true ∧
      pid_present params 0x001A = true ∧ pid_present params 0x001D = true ∧
      pid_present params 0x0003 = false) →
      (validate_sedp_packet submsg params).1 =
        ["Missing required PID: PID_TOPIC_NAME (0x0003)"]) := by
  have hsub_ne : submsg.entity_type = some "SEDP_SUB" →
      ¬ submsg.entity_type = some "SEDP_PUB" := by
    intro h hc; rw [h] at hc; simp at hc
  refine ⟨⟨rfl, rfl⟩, ?_, ?_⟩
  · intro hall
    have hreq : ∀ rp ∈ REQUIRED_SEDP_WRITER_PIDS, pid_present params rp.1 = true := by
      intro rp hrp
      have h5A := hall 0x005A (by simp)
      have h03 := hall 0x0003 (by simp)
      have h04 := hall 0x0004 (by simp)
      have h1A := hall 0x001A (by simp)
      have h1D := hall 0x001D (by simp)
      simp only [REQUIRED_SEDP_WRITER_PIDS, List.mem_cons, List.not_mem_nil, or_false] at hrp
      rcases hrp with rfl | rfl | rfl | rfl | rfl
      exacts [h5A, h03, h04, h1A, h1D]
    rcases hrole with h | h
    · unfold validate_sedp_packet
      rw [if_pos h, validate_findings_clean _ _ _ hreq hnames]
    · unfold validate_sedp_packet
      rw [if_neg (hsub_ne h), if_pos h,
          validate_findings_clean _ _ _
            (show ∀ rp ∈ REQUIRED_SEDP_READER_PIDS, pid_present params rp.1 = true from hreq)
            hnames]
  · rintro ⟨h5A, h04, h1A, h1D, h03⟩
    have hmiss : REQUIRED_SEDP_WRITER_PIDS.filterMap (fun rp =>
        if pid_present params rp.1 then none
        else some ("Missing required PID: " ++ rp.2 ++ " (0x" ++ hex4Upper rp.1 ++ ")")) =
        ["Missing required PID: PID_TOPIC_NAME (0x0003)"] := by
      simp only [REQUIRED_SEDP_WRITER_PIDS, List.filterMap_cons, List.filterMap_nil,
        h5A, h03, h04, h1A, h1D, if_true, if_false, Bool.false_eq_true]
      decide
    rcases hrole with h | h
    · unfold validate_sedp_packet validate_findings
      rw [if_pos h]
      simp only [hmiss, flatMap_name_issue_nil params hnames, List.append_nil]
    · unfold validate_sedp_packet validate_findings
      rw [if_neg (hsub_ne h), if_pos h]
      simp only [flatMap_name_issue_nil params hnames, List.append_nil]
      exact hmiss

/-- Claim C3, counterexample to the original statement: the ids `PID_MAP`
assigns the names PID_RELIABILITY and PID_DURABILITY are 0x0011 and 0x0007,
yet a SEDP_PUB parameter set carrying exactly the five pids named by
`PID_MAP` (0x005A, 0x0003, 0x0004, 0x0011, 0x0007) receives two
missing-parameter issues, not zero. -/
theorem claim_C3_counterexample :
    PID_MAP 0x0011 = some "PID_RELIABILITY" ∧ PID_MAP 0x0007 = some "PID_DURABILITY" ∧
    validate_sedp_packet c3sub c3cexparams =
      (["Missing required PID: PID_RELIABILITY (0x001A)",
        "Missing required PID: PID_DURABILITY (0x001D)"], []) := by
  decide

theorem claim_C3_witness :
    ((c3sub.entity_type = some "SEDP_PUB" ∨ c3sub.entity_type = some "SEDP_SUB") ∧
     (∀ pid ∈ [0x005A, 0x0003, 0x0004, 0x001A, 0x001D], pid_present c3wparams pid = true)) ∧
    (validate_sedp_packet c3sub c3wparams).1 = [] :=
  ⟨⟨by decide, by decide⟩,
   (claim_C3 c3sub c3wparams (by decide) (by decide)).2.1 (by decide)⟩

/-- Claim C8: a DATA submessage not classified SEDP_PUB or SEDP_SUB always
produces the empty validation result; one classified SEDP_PUB or SEDP_SUB
whose parameter set contains all required parameters and whose topic-name
and type-name values decode to non-empty, non-error strings produces zero
issues and exactly the zero-sequence-number warning when its sequence
number is 0, and no warning otherwise. -/
theorem claim_C8 (submsg : Submsg) (params : List Param) :
    (¬(submsg.entity_type = some "SEDP_PUB" ∨ submsg.entity_type = some "SEDP_SUB") →
      validate_sedp_packet submsg params = ([], [])) ∧
    ((submsg.entity_type = some "SEDP_PUB" ∨ submsg.entity_type = some "SEDP_SUB") →
     (∀ pid ∈ [0x005A, 0x0003, 0x0004, 0x001A, 0x001D], pid_present params pid = true) →
     (∀ p ∈ params, (p.pid = 0x0003 ∨ p.pid = 0x0004) →
       p.decoded.getD "" ≠ "" ∧ p.decoded.getD "" ≠ "<decode error>") →
     validate_sedp_packet submsg params =
       ([], if submsg.sequence_number.getD 0 = 0
            then ["Sequence number is 0 (should start from 1 for Reliable QoS)"] else [])) := by
  constructor
  · intro h
    push_neg at h
    unfold validate_sedp_packet
    rw [if_neg h.1, if_neg h.2]
  · intro hrole hall hnames
    have hreq : ∀ rp ∈ REQUIRED_SEDP_WRITER_PIDS, pid_present params rp.1 = true := by
      intro rp hrp
      have h5A := hall 0x005A (by simp)
      have h03 := hall 0x0003 (by simp)
      have h04 := hall 0x0004 (by simp)
      have h1A := hall 0x001A (by simp)
      have h1D := hall 0x001D (by simp)
      simp only [REQUIRED_SEDP_WRITER_PIDS, List.mem_cons, List.not_mem_nil, or_false] at hrp
      rcases hrp with rfl | rfl | rfl | rfl | rfl
      exacts [h5A, h03, h04, h1A, h1D]
    rcases hrole with h | h
    · unfold validate_sedp_packet
      rw [if_pos h, validate_findings_clean _ _ _ hreq hnames]
    · have hne : ¬ submsg.entity_type = some "SEDP_PUB" := by
        rw [h]; simp
      unfold validate_sedp_packet
      rw [if_neg hne, if_pos h,
          validate_findings_clean _ _ _
            (show ∀ rp ∈ REQUIRED_SEDP_READER_PIDS, pid_present params rp.1 = true from hreq)
            hnames]

theorem claim_C8_witness :
    ((c8sub.entity_type = some "SEDP_PUB" ∨ c8sub.entity_type = some "SEDP_SUB") ∧
     (∀ pid ∈ [0x005A, 0x0003, 0x0004, 0x001A, 0x001D], pid_present c8params pid = true) ∧
     c8sub.sequence_number.getD 0 = 0) ∧
    validate_sedp_packet c8sub c8params =
      ([], if c8sub.sequence_number.getD 0 = 0
           then ["Sequence number is 0 (should start from 1 for Reliable QoS)"] else []) :=
  ⟨⟨by decide, by decide, by decide⟩,
   (claim_C8 c8sub c8params).2 (by decide) (by decide) (by decide)⟩

/-- Claim C4: `read_pcap` raises a fatal error exactly when the 24-byte
global header is short or its 4-byte magic (read little-endian) is neither
0xa1b2c3d4 (little-endian data) nor 0xd4c3b2a1 (big-endian data); a record
declaring a captured length exceeding the bytes remaining raises no error —
it reports a truncation warning and stops — and every packet produced from
an earlier complete record is still returned (the record loop conses it
onto whatever the rest of the file yields). -/
theorem claim_C4 :
    (∀ bytes : List Nat,
      exceptIsError (read_pcap bytes) = true ↔
        (bytes.length < 24 ∨
         (le32 (bytes.getD 0 0) (bytes.getD 1 0) (bytes.getD 2 0) (bytes.getD 3 0) ≠ 0xa1b2c3d4 ∧
          le32 (bytes.getD 0 0) (bytes.getD 1 0) (bytes.getD 2 0) (bytes.getD 3 0) ≠ 0xd4c3b2a1))) ∧
    (∀ (little : Bool) (fuel : Nat) (rest : List Nat) (num : Nat),
      16 ≤ rest.length →
      rest.length - 16 <
        pcapU32 little (rest.getD 8 0) (rest.getD 9 0) (rest.getD 10 0) (rest.getD 11 0) →
      pcap_loop little (fuel + 1) rest num =
        ([], ["Warning: Packet " ++ toString (num + 1) ++ " truncated"])) ∧
    (∀ (little : Bool) (fuel : Nat) (rest : List Nat) (num incl : Nat),
      incl = pcapU32 little (rest.getD 8 0) (rest.getD 9 0) (rest.getD 10 0) (rest.getD 11 0) →
      16 ≤ rest.length →
      incl + 16 ≤ rest.length →
      ∃ pkt, pcap_loop little (fuel + 1) rest num =
          (pkt :: (pcap_loop little fuel ((rest.drop 16).drop incl) (num + 1)).1,
           (pcap_loop little fuel ((rest.drop 16).drop incl) (num + 1)).2) ∧
        pkt.num = num + 1 ∧ pkt.data = (rest.drop 16).take incl ∧ pkt.size = incl) := by
  refine ⟨?_, ?_, ?_⟩
  · intro bytes
    simp only [read_pcap, exceptIsError]
    split_ifs with h1 h2 h3 <;> simp_all
  · intro little fuel rest num h16 hover
    simp only [pcap_loop]
    rw [if_neg (by omega)]
    rw [if_pos (by simp only [List.length_take, List.length_drop]; omega)]
  · intro little fuel rest num incl hincl h16 hroom
    subst hincl
    simp only [pcap_loop]
    rw [if_neg (by omega)]
    rw [if_neg (by simp only [List.length_take, List.length_drop]; omega)]
    exact ⟨_, rfl, rfl, rfl, rfl⟩

theorem claim_C4_witness :
    ((16 ≤ c4wrest.length ∧
      c4wrest.length - 16 <
        pcapU32 true (c4wrest.getD 8 0) (c4wrest.getD 9 0) (c4wrest.getD 10 0) (c4wrest.getD 11 0)) ∧
     exceptIsError (read_pcap [1, 2, 3]) = true) ∧
    pcap_loop true 4 c4wrest 0 = ([], ["Warning: Packet 1 truncated"]) :=
  ⟨⟨⟨by decide, by decide⟩, (claim_C4.1 [1, 2, 3]).mpr (by decide)⟩,
   claim_C4.2.1 true 3 c4wrest 0 (by decide) (by decide)⟩

/-- Claim C10: a capture file whose record stream ends with a partial
16-byte per-packet record header (at least 1 but fewer than 16 bytes
remaining) ends iteration silently — no warning and no error, unlike the
warned frame-data truncation — and every packet produced from the complete
records before it is returned: on the concrete file `c10file` (one
complete record followed by 5 leftover bytes) `read_pcap` succeeds with
exactly that one packet and no warnings. -/
theorem claim_C10 :
    (∀ (little : Bool) (fuel : Nat) (rest : List Nat) (num : Nat),
      1 ≤ rest.length → rest.length < 16 → pcap_loop little fuel rest num = ([], [])) ∧
    read_pcap c10file = .ok ([c10pkt], []) := by
  constructor
  · intro little fuel rest num h1 h16
    cases fuel with
    | zero => rfl
    | succ f =>
      simp only [pcap_loop]
      rw [if_pos h16]
  · rfl

theorem claim_C10_witness :
    (1 ≤ ([1, 2, 3] : List Nat).length ∧ ([1, 2, 3] : List Nat).length < 16) ∧
    pcap_loop true 5 [1, 2, 3] 0 = ([], []) :=
  ⟨⟨by decide, by decide⟩, claim_C10.1 true 5 [1, 2, 3] 0 (by decide) (by decide)⟩
